import Mathlib

/-!
Verification of the memoized caching / output-lifecycle subsystem of the
df-analyze driver (files `src/saving.py`, `src/cli/cli.py`, `df-analyze.py`).

The Python code is shallowly embedded: `pathlib.Path` values are plain
strings, filesystem effects (`os.access`, `mkdir`, `mkdtemp`) are supplied
by an explicit environment of boolean oracles, Python exceptions are
`Except`/`Option` results, and `print` output is collected in explicit
traces.  Python `dict`s are association lists in insertion order.
-/

/-- `pathlib`-style `/` on paths (paths are modelled as strings). -/
def pjoin (a b : String) : String := a ++ "/" ++ b

/-- ASCII lower-casing of one character, as `str.lower` acts on the
column names appearing in this program. -/
def lowerChar (c : Char) : Char :=
  if c.toNat ≥ 65 && c.toNat ≤ 90 then Char.ofNat (c.toNat + 32) else c

/-- Python `s.lower()` (ASCII range; the program only lowercases ASCII
column names). -/
def pyLower (s : String) : String := String.mk (s.toList.map lowerChar)

/-- Does the character list start with the pattern? (helper for the Python
`in` substring test). -/
def startsWithList : List Char → List Char → Bool
  | _, [] => true
  | [], _ :: _ => false
  | a :: as, b :: bs => a == b && startsWithList as bs

/-- Helper for `strContains`: does `pat` occur in `s` as a contiguous run? -/
def containsList (pat : List Char) : List Char → Bool
  | [] => startsWithList [] pat
  | a :: rest => startsWithList (a :: rest) pat || containsList pat rest

/-- Python `pat in s` on strings (contiguous substring test). -/
def strContains (s pat : String) : Bool := containsList pat.toList s.toList

/-- Python `sep.join(xs)`. -/
def pyJoin (sep : String) : List String → String
  | [] => ""
  | [x] => x
  | x :: y :: rest => x ++ sep ++ pyJoin sep (y :: rest)

/-- Strict lexicographic comparison of character lists by code point —
Python string `<`. -/
def lexLt : List Char → List Char → Bool
  | [], [] => false
  | [], _ :: _ => true
  | _ :: _, [] => false
  | a :: as, b :: bs => if a = b then lexLt as bs else decide (a.toNat < b.toNat)

/-- Python string `<`. -/
def pyStrLt (a b : String) : Bool := lexLt a.toList b.toList

/-- Python string `<=`. -/
def pyStrLe (a b : String) : Bool := pyStrLt a b || a == b

/-- Values that can sit in a `ProgramDirs.__dict__` slot. -/
inductive PyVal where
  | vstr (s : String)
  | vpath (p : String)
  | vnone
  | vbool (b : Bool)
deriving DecidableEq

/-- Python `isinstance(x, Path)`. -/
def isinstancePath : PyVal → Bool
  | .vpath _ => true
  | _ => false

/-- The Python exceptions this subsystem can raise. -/
inductive PyErr where
  | permissionError (path : String)
  | osError (path : String)
  | keyError (key : String)
  | valueError (msg : String)
  | attributeError (name : String)
  | typeError (msg : String)
  | fileNotFoundError (path : String)
  | fileExistsError (path : String)
deriving DecidableEq

/-! ## `src/saving.py` -/

/-- `FileType` enum of `src/saving.py` (lines 26-31). -/
inductive FileType where
  | interim
  | final
  | feature
  | params
  | univariate
deriving DecidableEq

/-- The `ProgramDirs` dataclass of `src/saving.py` (lines 34-47): optional
root plus the fixed set of output subdirectories and the `needs_clean`
flag.  All path fields default to `None`. -/
structure ProgramDirs where
  root : Option String := none
  joblib_cache : Option String := none
  inspection : Option String := none
  features : Option String := none
  associations : Option String := none
  predictions : Option String := none
  selection : Option String := none
  tuning : Option String := none
  results : Option String := none
  needs_clean : Bool := false
deriving DecidableEq

/-- `ProgramDirs()` — every field at its dataclass default. -/
def ProgramDirs.empty : ProgramDirs := {}

/-- The fully populated `ProgramDirs` built at lines 56-67 of
`src/saving.py` from a resolved root. -/
def ProgramDirs.populated (root : String) (needs_clean : Bool) : ProgramDirs :=
  { root := some root
    joblib_cache := some (pjoin root "__JOBLIB_CACHE__")
    inspection := some (pjoin root "inspection")
    features := some (pjoin root "features")
    associations := some (pjoin root "features/associations")
    predictions := some (pjoin root "features/predictions")
    selection := some (pjoin root "selection")
    tuning := some (pjoin root "tuning")
    results := some (pjoin root "results")
    needs_clean := needs_clean }

/-- Option-valued field as it appears in the instance `__dict__`. -/
def optVal : Option String → PyVal
  | some p => .vpath p
  | none => .vnone

/-- The instance `__dict__` of a `ProgramDirs` value: attribute names
paired with attribute values, in dataclass field order. -/
def ProgramDirs.pydict (d : ProgramDirs) : List (String × PyVal) :=
  [("root", optVal d.root),
   ("joblib_cache", optVal d.joblib_cache),
   ("inspection", optVal d.inspection),
   ("features", optVal d.features),
   ("associations", optVal d.associations),
   ("predictions", optVal d.predictions),
   ("selection", optVal d.selection),
   ("tuning", optVal d.tuning),
   ("results", optVal d.results),
   ("needs_clean", PyVal.vbool d.needs_clean)]

/-- Python attribute lookup on a `ProgramDirs` instance: `None` when the
dataclass does not define the attribute (an `AttributeError`). -/
def ProgramDirs.getattr (d : ProgramDirs) (name : String) : Option PyVal :=
  (d.pydict.find? (fun kv => kv.1 == name)).map Prod.snd

/-- Outcome of `tempfile.mkdtemp`. -/
inductive MkdtempOutcome where
  | ok (path : String)
  | fileExists
  | otherError
deriving DecidableEq

/-- Filesystem environment supplying the oracles behind `os.access(…,
W_OK)`, `Path.home()`, `Path.cwd()`, `Path.mkdir` success and
`tempfile.mkdtemp`. -/
structure FsEnv where
  writable : String → Bool
  home : String
  cwd : String
  mkdirOk : String → Bool
  mkdtempResult : MkdtempOutcome

/-- The body of the outer `try` of `ProgramDirs.configure_root`
(`src/saving.py` lines 85-133), before the blanket `except Exception`
at line 134 is applied.  An `Except.error` is an exception escaping the
body (the explicit `raise PermissionError` at line 87, or a failing
`outdir.mkdir` at lines 101/132); the early `return`s inside the inner
`try/except` blocks (lines 115, 122, 129) are `Except.ok` values. -/
def configure_root_body (env : FsEnv) (root : Option String) :
    Except PyErr (Option String × Bool) :=
  -- line 86: an explicitly requested root must already be writable
  match root with
  | some r =>
    if !env.writable r then .error (.permissionError r)
    else configure_root_rest env (some r)
  | none => configure_root_rest env none
where
  /-- lines 93-133 of `src/saving.py`. -/
  configure_root_rest (env : FsEnv) (root : Option String) :
      Except PyErr (Option String × Bool) :=
    let needs_clean := false
    -- line 94: `outdir = root or Path.home().resolve() / "df-analyze-outputs"`
    let outdir := match root with
      | some r => r
      | none => pjoin env.home "df-analyze-outputs"
    if !env.writable outdir then
      -- line 97: fall back to the current working directory (warns)
      let outdir := pjoin env.cwd "df-analyze-outputs"
      if !env.writable outdir then
        -- lines 105-129: temporary-directory fallback, inner try/except
        match env.mkdtempResult with
        | .ok raw =>
          -- line 107 sets `needs_clean = True` before the mkdir at line 114,
          -- whose failure is caught by the inner `except Exception` (line
          -- 123), which returns `(None, needs_clean)` with the flag set
          if env.mkdirOk raw then .ok (some raw, true) else .ok (none, true)
        | .fileExists => .ok (none, needs_clean)
        | .otherError => .ok (none, needs_clean)
      else
        -- line 132: mkdir, then return (outdir, needs_clean)
        if env.mkdirOk outdir then .ok (some outdir, needs_clean)
        else .error (.osError outdir)
    else
      -- line 101: mkdir, then return (outdir, needs_clean)
      if env.mkdirOk outdir then .ok (some outdir, needs_clean)
      else .error (.osError outdir)

/-- `ProgramDirs.configure_root` (`src/saving.py` lines 83-140): the outer
`except Exception` at line 134 turns any escaping exception into the
in-memory result `(None, False)` (with a warning). -/
def configure_root (env : FsEnv) (root : Option String) : Option String × Bool :=
  match configure_root_body env root with
  | .ok res => res
  | .error _ => (none, false)

/-- The `for path in new.__dict__:` loop of `ProgramDirs.new`
(`src/saving.py` lines 68-80).  Iterating a Python `dict` yields its
*keys*, so the loop runs over the attribute-name strings of the new
instance.  The loop body only acts when `isinstance(path, Path)` holds,
skips paths containing `"JOBLIB"`, attempts `path.mkdir` otherwise, and
on any mkdir exception abandons everything and returns
`ProgramDirs(root=None)`.  The second component accumulates the
directories actually created. -/
def mkdirLoop (env : FsEnv) : List PyVal → ProgramDirs → List String →
    ProgramDirs × List String
  | [], new, created => (new, created)
  | .vpath p :: rest, new, created =>
    if strContains p "JOBLIB" then mkdirLoop env rest new created
    else if env.mkdirOk p then mkdirLoop env rest new (created ++ [p])
    else (ProgramDirs.empty, created)
  | _ :: rest, new, created => mkdirLoop env rest new created

/-- `ProgramDirs.new` (`src/saving.py` lines 49-81).  Returns the
resulting `ProgramDirs` together with the list of directories the loop
created on disk. -/
def ProgramDirs.new (env : FsEnv) (root : Option String) :
    ProgramDirs × List String :=
  match configure_root env root with
  | (none, _) => (ProgramDirs.empty, [])
  | (some r, needs_clean) =>
    let new := ProgramDirs.populated r needs_clean
    mkdirLoop env (new.pydict.map (fun kv => PyVal.vstr kv.1)) new []

/-! ## String ordering (Python compares strings by code point) -/

theorem charToNat_inj {a b : Char} (h : a.toNat = b.toNat) : a = b :=
  Char.eq_of_val_eq (UInt32.ext h)

theorem stringToList_inj {a b : String} (h : a.toList = b.toList) : a = b := by
  cases a; cases b; exact congrArg String.mk h

theorem lexLt_irrefl (l : List Char) : lexLt l l = false := by
  induction l with
  | nil => rfl
  | cons a as ih => simp [lexLt, ih]

theorem lexLt_asymm : ∀ {x y : List Char}, lexLt x y = true → lexLt y x = false
  | [], [], h => by simp [lexLt] at h
  | [], _ :: _, _ => rfl
  | _ :: _, [], h => by simp [lexLt] at h
  | a :: as, b :: bs, h => by
    by_cases hab : a = b
    · subst hab
      rw [lexLt, if_pos rfl] at h ⊢
      exact lexLt_asymm h
    · have hba : ¬b = a := fun hh => hab hh.symm
      rw [lexLt, if_neg hab, decide_eq_true_eq] at h
      rw [lexLt, if_neg hba, decide_eq_false_iff_not]
      omega

theorem lexLt_trans : ∀ {x y z : List Char},
    lexLt x y = true → lexLt y z = true → lexLt x z = true
  | _, [], [], _, h2 => by simp [lexLt] at h2
  | [], _ :: _, [], _, h2 => by simp [lexLt] at h2
  | [], _, _ :: _, _, _ => rfl
  | _ :: _, [], _, h1, _ => by simp [lexLt] at h1
  | a :: as, b :: bs, c :: cs, h1, h2 => by
    by_cases hab : a = b <;> by_cases hbc : b = c
    · subst hab; subst hbc
      rw [lexLt, if_pos rfl] at h1 h2 ⊢
      exact lexLt_trans h1 h2
    · subst hab
      rw [lexLt, if_neg hbc] at h2 ⊢
      exact h2
    · subst hbc
      rw [lexLt, if_neg hab] at h1 ⊢
      exact h1
    · rw [lexLt, if_neg hab, decide_eq_true_eq] at h1
      rw [lexLt, if_neg hbc, decide_eq_true_eq] at h2
      have hac : a.toNat < c.toNat := Nat.lt_trans h1 h2
      have hne : ¬a = c := fun hh => by subst hh; omega
      rw [lexLt, if_neg hne, decide_eq_true_eq]
      exact hac

theorem lexLt_total : ∀ {x y : List Char},
    x ≠ y → lexLt x y = true ∨ lexLt y x = true
  | [], [], h => absurd rfl h
  | [], _ :: _, _ => Or.inl rfl
  | _ :: _, [], _ => Or.inr rfl
  | a :: as, b :: bs, h => by
    by_cases hab : a = b
    · subst hab
      have hne : as ≠ bs := fun hh => h (by rw [hh])
      rw [lexLt, if_pos rfl, lexLt, if_pos rfl]
      exact lexLt_total hne
    · have hba : ¬b = a := fun hh => hab hh.symm
      have hnat : a.toNat ≠ b.toNat := fun hh => hab (charToNat_inj hh)
      rw [lexLt, if_neg hab, decide_eq_true_eq, lexLt, if_neg hba, decide_eq_true_eq]
      omega

theorem pyStrLt_asymm {a b : String} (h : pyStrLt a b = true) : pyStrLt b a = false :=
  lexLt_asymm h

theorem pyStrLt_trans {a b c : String} (h1 : pyStrLt a b = true)
    (h2 : pyStrLt b c = true) : pyStrLt a c = true :=
  lexLt_trans h1 h2

theorem pyStrLt_total {a b : String} (h : a ≠ b) :
    pyStrLt a b = true ∨ pyStrLt b a = true :=
  lexLt_total (fun hh => h (stringToList_inj hh))

theorem pyStrLe_refl (a : String) : pyStrLe a a = true := by
  simp [pyStrLe]

theorem pyStrLe_trans {a b c : String} (h1 : pyStrLe a b = true)
    (h2 : pyStrLe b c = true) : pyStrLe a c = true := by
  simp only [pyStrLe, Bool.or_eq_true, beq_iff_eq] at h1 h2 ⊢
  rcases h1 with h1 | h1
  · rcases h2 with h2 | h2
    · exact Or.inl (pyStrLt_trans h1 h2)
    · subst h2; exact Or.inl h1
  · subst h1
    exact h2

theorem pyStrLe_antisymm {a b : String} (h1 : pyStrLe a b = true)
    (h2 : pyStrLe b a = true) : a = b := by
  simp only [pyStrLe, Bool.or_eq_true, beq_iff_eq] at h1 h2
  rcases h1 with h1 | h1
  · rcases h2 with h2 | h2
    · simp [pyStrLt_asymm h1] at h2
    · exact h2.symm
  · exact h1

theorem pyStrLe_total (a b : String) : pyStrLe a b = true ∨ pyStrLe b a = true := by
  by_cases h : a = b
  · subst h; exact Or.inl (pyStrLe_refl a)
  · rcases pyStrLt_total h with hlt | hlt
    · exact Or.inl (by simp [pyStrLe, hlt])
    · exact Or.inr (by simp [pyStrLe, hlt])

/-- The ordering used by `sorted` on Python strings, as a proposition. -/
def pyLe (a b : String) : Prop := pyStrLe a b = true

instance : DecidableRel pyLe := fun a b => instDecidableEqBool (pyStrLe a b) true

instance : IsTrans String pyLe := ⟨fun _ _ _ => pyStrLe_trans⟩

instance : IsTotal String pyLe := ⟨fun a b => pyStrLe_total a b⟩

instance : IsAntisymm String pyLe := ⟨fun _ _ => pyStrLe_antisymm⟩

/-- Python tuple comparison on `dict.items()` pairs: compare the keys, tie
broken by the values. -/
def itemLeB (a b : String × String) : Bool :=
  if a.1 = b.1 then pyStrLe a.2 b.2 else pyStrLt a.1 b.1

/-- `itemLeB` as a proposition, for the sorting lemmas. -/
def itemLe (a b : String × String) : Prop := itemLeB a b = true

instance : DecidableRel itemLe := fun a b => instDecidableEqBool (itemLeB a b) true

instance : IsTrans (String × String) itemLe :=
  ⟨by
    intro a b c h1 h2
    unfold itemLe itemLeB at h1 h2 ⊢
    by_cases hab : a.1 = b.1 <;> by_cases hbc : b.1 = c.1
    · rw [if_pos hab] at h1; rw [if_pos hbc] at h2
      rw [if_pos (hab.trans hbc)]
      exact pyStrLe_trans h1 h2
    · rw [if_pos hab] at h1; rw [if_neg hbc] at h2
      have hac : ¬a.1 = c.1 := fun hh => hbc (hab ▸ hh)
      rw [if_neg hac, hab]
      exact h2
    · rw [if_neg hab] at h1; rw [if_pos hbc] at h2
      have hac : ¬a.1 = c.1 := fun hh => hab (hh.trans hbc.symm)
      rw [if_neg hac, ← hbc]
      exact h1
    · rw [if_neg hab] at h1; rw [if_neg hbc] at h2
      have hlt := pyStrLt_trans h1 h2
      by_cases hac : a.1 = c.1
      · rw [hac] at h1
        simp [pyStrLt_asymm h2] at h1
      · rw [if_neg hac]
        exact hlt⟩

instance : IsTotal (String × String) itemLe :=
  ⟨by
    intro a b
    unfold itemLe itemLeB
    by_cases hab : a.1 = b.1
    · rw [if_pos hab, if_pos hab.symm]
      exact pyStrLe_total a.2 b.2
    · have hba : ¬b.1 = a.1 := fun hh => hab hh.symm
      rw [if_neg hab, if_neg hba]
      exact pyStrLt_total hab⟩

instance : IsAntisymm (String × String) itemLe :=
  ⟨by
    intro a b h1 h2
    unfold itemLe itemLeB at h1 h2
    by_cases hab : a.1 = b.1
    · rw [if_pos hab] at h1; rw [if_pos hab.symm] at h2
      have h22 : a.2 = b.2 := pyStrLe_antisymm h1 h2
      obtain ⟨a1, a2⟩ := a
      obtain ⟨b1, b2⟩ := b
      simp only at hab h22
      rw [hab, h22]
    · have hba : ¬b.1 = a.1 := fun hh => hab hh.symm
      rw [if_neg hab] at h1; rw [if_neg hba] at h2
      simp [pyStrLt_asymm h1] at h2⟩

/-! ## `get_hash` (`src/saving.py` lines 143-153) -/

/-- Python `dict.pop(key)` with no default: `None` models the `KeyError`
raised when the key is absent.  Dicts are association lists in insertion
order (keys unique in any dict built by Python). -/
def dict_pop (d : List (String × String)) (k : String) :
    Option (List (String × String)) :=
  if d.any (fun kv => kv.1 == k) then some (d.filter (fun kv => !(kv.1 == k)))
  else none

/-- The `for ignore in ignores: to_hash.pop(ignore)` loop of `get_hash`. -/
def popAll : List (String × String) → List String →
    Option (List (String × String))
  | d, [] => some d
  | d, k :: rest =>
    match dict_pop d k with
    | none => none
    | some d2 => popAll d2 rest

/-- Python `repr` of one `(key, value)` item as it appears inside
`str(tuple(sorted(to_hash.items())))` (values modelled by their reprs). -/
def pyReprPair (p : String × String) : String := "(" ++ p.1 ++ ", " ++ p.2 ++ ")"

/-- Python `str(tuple(…))` over the sorted item list. -/
def pyReprTuple (ps : List (String × String)) : String :=
  "(" ++ pyJoin ", " (ps.map pyReprPair) ++ ")"

/-- Python `sorted(to_hash.items())` (sorted is a stable sort under the
tuple order). -/
def sorted_items (d : List (String × String)) : List (String × String) :=
  List.insertionSort itemLe d

/-- `get_hash` (`src/saving.py` lines 143-153).  `digest` abstracts the
external `hashlib.md5(….encode()).hexdigest()` pipeline, a fixed function
of the serialized string; `none` models the `KeyError` escaping from
`to_hash.pop(ignore)`. -/
def get_hash (digest : String → String) (args : List (String × String))
    (ignores : Option (List String)) : Option String :=
  let igs := ignores.getD []
  match popAll args igs with
  | none => none
  | some to_hash => some (digest (pyReprTuple (sorted_items to_hash)))

/-- The multi-valued-option normalization `tuple(sorted(set(xs)))`
performed by `ProgramOptions.__init__` (`src/cli/cli.py` lines 160-165,
180): deduplicate, then sort. -/
def tuple_sorted_set (xs : List String) : List String :=
  List.insertionSort pyLe xs.dedup

/-! ## `try_save` (`src/saving.py` lines 156-215) -/

/-- `pathlib` `/` applied to an attribute value: only defined on paths
(`None / "x"` is a `TypeError` in Python). -/
def pyPathDiv (v : PyVal) (s : String) : Except PyErr PyVal :=
  match v with
  | .vpath p => .ok (.vpath (pjoin p s))
  | _ => .error (.typeError "unsupported operand type for /")

/-- The target-directory dispatch of `try_save` (`src/saving.py` lines
164-195).  On success it yields the `outdir` value and the `desc` string;
an `Except.error` is the exception the dispatch raises.  Note that the
branches for `Interim`, `Final`, `Feature` and `Params` read the
attributes `interim_results`, `final_results` and `feature_selection`
from the `ProgramDirs` instance, and that `FileType.Univariate` falls
into the final `else: raise ValueError(...)` branch. -/
def try_save_outdir (program_dirs : ProgramDirs) :
    FileType → Option String → List String → Except PyErr (PyVal × String)
  | .interim, _, _ =>
    match program_dirs.getattr "interim_results" with
    | none => .error (.attributeError "interim_results")
    | some v => .ok (v, "interim results")
  | .final, _, _ =>
    match program_dirs.getattr "final_results" with
    | none => .error (.attributeError "final_results")
    | some v => .ok (v, "final results for all options")
  | .feature, selection, cleaning =>
    -- lines 171-180: selection / cleaning markers
    let sel := match selection with
      | none => "no-selection"
      | some s => if s = "none" then "no-selection" else s ++ "-selection"
    let clean :=
      if cleaning.length > 0 then "_cleaning=" ++ pyJoin "-" cleaning else ""
    match program_dirs.getattr "feature_selection" with
    | none => .error (.attributeError "feature_selection")
    | some v =>
      match pyPathDiv v (sel ++ clean) with
      | .error e => .error e
      | .ok o => .ok (o, "selected/cleaned features")
  | .params, selection, cleaning =>
    -- lines 184-192: identical computation for the Params branch
    let sel := match selection with
      | none => "no-selection"
      | some s => if s = "none" then "no-selection" else s ++ "-selection"
    let clean :=
      if cleaning.length > 0 then "_cleaning=" ++ pyJoin "-" cleaning else ""
    match program_dirs.getattr "feature_selection" with
    | none => .error (.attributeError "feature_selection")
    | some v =>
      match pyPathDiv v (sel ++ clean) with
      | .error e => .error e
      | .ok o => .ok (o, "selected/cleaned features")
  | .univariate, _, _ => .error (.valueError "Invalid FileType for manual saving")

/-- Success/failure of the two external serialization calls
(`df.to_json`, `df.to_csv`). -/
structure WriteEnv where
  jsonOk : Bool
  csvOk : Bool
deriving DecidableEq

/-- Observable outcome of the write phase of a `try_save`: the lines
printed to standard output, the number of stack traces printed to
standard error by `traceback.print_exc()`, the values of bare expression
statements (computed and then discarded), and whether each format was
written. -/
structure SaveTrace where
  stdout : List String
  stderrTracebacks : Nat
  discarded : List String
  savedJson : Bool
  savedCsv : Bool
deriving DecidableEq

/-- One `try: df.to_<fmt>(…); print(success) except Exception:
traceback.print_exc(); print(fail); df.to_markdown(…)` block.  The
`except Exception` handler catches the write failure, prints the
diagnostic, and evaluates the `to_markdown` rendering as a bare
expression statement — its value is discarded, not printed. -/
def writeBlock (ok : Bool) (successMsg failMsg rendering : String) :
    List String × Nat × List String × Bool :=
  if ok then ([successMsg], 0, [], true)
  else ([failMsg], 1, [rendering], false)

/-- The `try_save` of `df-analyze.py` (lines 60-76): two independent
try/except blocks writing the JSON and CSV serializations.  `md` is the
`df.to_markdown(tablefmt="simple", floatfmt="0.5f")` rendering of the
artifact (modelled as an arbitrary string). -/
def try_save_writes (env : WriteEnv) (md outdir file_info : String) : SaveTrace :=
  let json := pjoin outdir (file_info ++ ".json")
  let csv := pjoin outdir (file_info ++ ".csv")
  let r1 := writeBlock env.jsonOk ("Saved interim result to " ++ json)
    ("Failed to save following results to " ++ json) md
  let r2 := writeBlock env.csvOk ("Saved interim result to " ++ csv)
    ("Failed to save following results to " ++ csv) md
  { stdout := r1.1 ++ r2.1
    stderrTracebacks := r1.2.1 + r2.2.1
    discarded := r1.2.2.1 ++ r2.2.2.1
    savedJson := r1.2.2.2
    savedCsv := r2.2.2.2 }

/-- The write phase of `try_save` in `src/saving.py` (lines 197-214):
same two isolated try/except blocks, under `json/` and `csv/`
subdirectories and with `desc`-bearing messages.  The unguarded
`parent.mkdir` calls at lines 199-200 are modelled as succeeding (their
failure is outside the per-format write isolation). -/
def try_save_writes_full (env : WriteEnv) (md desc outdir file_stem : String) :
    SaveTrace :=
  let json := pjoin outdir ("json/" ++ file_stem ++ ".json")
  let csv := pjoin outdir ("csv/" ++ file_stem ++ ".csv")
  let r1 := writeBlock env.jsonOk ("Saved " ++ desc ++ " to " ++ json)
    ("Failed to save following results to " ++ json) md
  let r2 := writeBlock env.csvOk ("Saved " ++ desc ++ " to " ++ csv)
    ("Failed to save " ++ desc ++ " results to " ++ csv ++ ":") md
  { stdout := r1.1 ++ r2.1
    stderrTracebacks := r1.2.1 + r2.2.1
    discarded := r1.2.2.1 ++ r2.2.2.1
    savedJson := r1.2.2.2
    savedCsv := r2.2.2.2 }

/-! ## `sort_df` (`df-analyze.py` lines 91-104) -/

/-- A cell of a pandas `DataFrame`: a string or a number.  Float literals
are modelled as exact decimal fractions `num/den` (all numeric literals
in the examples are short decimals, whose pairwise comparisons agree with
the float comparisons). -/
inductive Cell where
  | s (v : String)
  | n (num : Int) (den : Nat)
deriving DecidableEq

/-- Comparison on cells.  Heterogeneous comparisons never occur in the
sorted column of the tables considered (they would raise `TypeError` in
Python); they are ordered arbitrarily here. -/
def cellLeB : Cell → Cell → Bool
  | .n a d, .n b e => decide (a * (e : Int) ≤ b * (d : Int))
  | .s a, .s b => pyStrLe a b
  | .s _, .n _ _ => true
  | .n _ _, .s _ => false

/-- A pandas `DataFrame`: column labels plus rows of cells. -/
structure DataFrame where
  cols : List String
  rows : List (List Cell)
deriving DecidableEq

/-- Row comparison by the cell in column `i` (for `sort_values`). -/
def rowLe (i : Nat) (r1 r2 : List Cell) : Prop :=
  cellLeB (r1.getD i (.s "")) (r2.getD i (.s "")) = true

instance (i : Nat) : DecidableRel (rowLe i) := fun a b =>
  instDecidableEqBool (cellLeB (a.getD i (.s "")) (b.getD i (.s ""))) true

/-- pandas `df.sort_values(by=label, ascending=True)`: the label is looked
up among the column labels (`KeyError` when absent) and the rows are
sorted ascending by that column (stable sort; on the concrete tables
considered all sort keys are distinct, so stability is irrelevant). -/
def sort_values (df : DataFrame) (b : String) : Except PyErr DataFrame :=
  match df.cols.findIdx? (fun c => c == b) with
  | none => .error (.keyError b)
  | some i => .ok ⟨df.cols, List.insertionSort (rowLe i) df.rows⟩

/-- `sort_df` (`df-analyze.py` lines 91-104): lower-case the column names,
pick the first one containing `"mae"` but not `"sd"`, and sort ascending
by that (lower-cased) name; with no such column the frame is returned
unchanged. -/
def sort_df (df : DataFrame) : Except PyErr DataFrame :=
  let cols := df.cols.map pyLower
  let sort_col := cols.find? (fun c => strContains c "mae" && !strContains c "sd")
  match sort_col with
  | none => .ok df
  | some col => sort_values df col

/-! ## `run_analysis` (`df-analyze.py` lines 127-175) -/

/-- Observable events of one `run_analysis` call: the results-directory
creation before the loop (lines 156-158), the external
`full_estimator_analysis` call and the `save_interim_result` persistence
for grid point `i` (lines 162-167), and the final aggregate
`try_save` (lines 169-173). -/
inductive RunEvent where
  | ensure_results_dir (p : String)
  | analyze (i : Nat)
  | save_interim (i : Nat)
  | save_final
deriving DecidableEq

/-- Recognizer for `save_interim` events. -/
def isSaveInterim : RunEvent → Bool
  | .save_interim _ => true
  | _ => false

/-- The two events of one loop iteration (lines 162-167): analyze the
grid point, then persist its result as an `Interim` artifact, before the
loop advances. -/
def pointEvents (i : Nat) : List RunEvent := [.analyze i, .save_interim i]

/-- The events of the full loop over `n` grid points, in order. -/
def loopEvents (n : Nat) : List RunEvent := (List.range n).flatMap pointEvents

/-- The event trace of `run_analysis` over `n` grid points with the given
shared `options.outdir`.  With `outdir = None`, line 157
(`results_dir.exists()`) raises `AttributeError` before any event.  With
a concrete outdir, `save_interim_result` (lines 79-88) persists each
point (its `outdir is None` early-return is not taken), and the `Final`
artifact is saved only after the loop. -/
def run_analysis_trace (outdir : Option String) (n : Nat) :
    Except PyErr (List RunEvent) :=
  match outdir with
  | none => .error (.attributeError "exists")
  | some d => .ok ([.ensure_results_dir d] ++ loopEvents n ++ [.save_final])

/-- The events observed when the process is interrupted after `k`
completed grid points (between the `save_interim` of point `k-1` and the
`analyze` of point `k`). -/
def stopAfter (d : String) (k : Nat) : List RunEvent :=
  [.ensure_results_dir d] ++ loopEvents k

/-! ## `ProgramOptions.__init__` (`src/cli/cli.py` lines 132-264) -/

/-- Side effects of `ProgramOptions` construction that the claims are
about: the `os.makedirs` inside `ensure_outdir` (line 263) and the
`setup_io` provisioning call (line 173), plus the trailing
`spam_warnings` call. -/
inductive InitEvent where
  | makedirs_outdir (p : String)
  | setup_io (p : String)
  | spam_warnings
deriving DecidableEq

/-- Filesystem facts consulted during construction. -/
structure InitEnv where
  datapathExists : Bool
  datapathIsFile : Bool
  outdirExists : Bool
  outdirIsDir : Bool
deriving DecidableEq

/-- Result of a `ProgramOptions.__init__` run: the side-effect events in
program order, the exception (if one is raised), and the normalized
`feat_select` tuple. -/
structure InitResult where
  events : List InitEvent
  error : Option PyErr
  feat_select : List String
deriving DecidableEq

/-- Split a string at a separator character. -/
def splitCharAux (sep : Char) : List Char → List Char → List (List Char)
  | [], acc => [acc.reverse]
  | c :: rest, acc =>
    if c = sep then acc.reverse :: splitCharAux sep rest []
    else splitCharAux sep rest (c :: acc)

/-- Python-style split on a single separator character. -/
def splitOnChar (sep : Char) (s : String) : List String :=
  (splitCharAux sep s.toList []).map String.mk

/-- `Path.parent` on the string model of paths. -/
def pathParent (p : String) : String := pyJoin "/" (splitOnChar '/' p).dropLast

/-- `Path.stem`: final path component with its last extension removed. -/
def pathStem (p : String) : String :=
  let nm := (splitOnChar '/' p).getLastD ""
  let parts := splitOnChar '.' nm
  if parts.length ≤ 1 then nm else pyJoin "." parts.dropLast

/-- `ProgramOptions.validate_datapath` (`src/cli/cli.py` lines 242-249):
`FileNotFoundError` when the data path does not exist or is not a file
(path resolution is modelled as the identity). -/
def validate_datapath (env : InitEnv) (datapath : String) : Except PyErr String :=
  if !env.datapathExists then .error (.fileNotFoundError datapath)
  else if !env.datapathIsFile then .error (.fileNotFoundError datapath)
  else .ok datapath

/-- `ProgramOptions.ensure_outdir` (`src/cli/cli.py` lines 251-264):
derive a default next to the data file when no outdir was given, raise
`FileExistsError` when the path exists and is not a directory, and call
`os.makedirs` when it does not exist.  The second component records the
`makedirs` side effect. -/
def ensure_outdir (env : InitEnv) (datapath : String) (outdir : Option String) :
    Except PyErr (String × List InitEvent) :=
  let out := match outdir with
    | none => pjoin (pathParent datapath) ("df-analyze-results__" ++ pathStem datapath)
    | some o => o
  if env.outdirExists then
    if !env.outdirIsDir then .error (.fileExistsError out)
    else .ok (out, [])
  else .ok (out, [.makedirs_outdir out])

/-- `ProgramOptions.__init__` (`src/cli/cli.py` lines 132-206) restricted
to the fields the claims concern.  Program order: `validate_datapath`
(line 157), multi-valued-option normalization (lines 160-165),
`ensure_outdir` (line 172), `setup_io` (line 173; modelled as an opaque
provisioning event — its definition is imported from `src.saving` but not
present in that file), the nested option records (lines 177-195), and
only then the regress/effect-size validation (lines 198-205), followed by
`spam_warnings` (line 206).  The `ValueError` message is abbreviated
(the source text names Cohens d and AUC and echoes the joined
`feat_select` arguments). -/
def programOptions_init (env : InitEnv) (datapath : String)
    (feat_select : List String) (mode : String) (outdir : Option String) :
    InitResult :=
  match validate_datapath env datapath with
  | .error e => { events := [], error := some e, feat_select := [] }
  | .ok dp =>
    let fs := tuple_sorted_set feat_select
    match ensure_outdir env dp outdir with
    | .error e => { events := [], error := some e, feat_select := fs }
    | .ok (out, evs) =>
      let evs := evs ++ [.setup_io out]
      if mode == "regress" && (fs.contains "d" || fs.contains "auc") then
        { events := evs
          error := some (.valueError
            ("Feature selection with Cohens d or AUC values is not supported " ++
             "for regression tasks. Got arguments: " ++ pyJoin " " fs))
          feat_select := fs }
      else
        { events := evs ++ [.spam_warnings], error := none, feat_select := fs }

/-! ## Concrete inputs used by witnesses and counterexamples -/

/-- A filesystem where every location is writable and every mkdir and
mkdtemp succeeds. -/
def fsEnvAllOk : FsEnv :=
  { writable := fun _ => true
    home := "/home/user"
    cwd := "/work"
    mkdirOk := fun _ => true
    mkdtempResult := .ok "/tmp/df_analyze_tmp0" }

/-- A filesystem where no location is writable. -/
def fsEnvNoWrite : FsEnv :=
  { writable := fun _ => false
    home := "/home/user"
    cwd := "/work"
    mkdirOk := fun _ => true
    mkdtempResult := .ok "/tmp/df_analyze_tmp0" }

/-- The result table of the sort-policy example: columns
`{model, mae, mae_sd, accuracy}`, rows `(A, 2.0, 0.1, 0.8)` and
`(B, 1.0, 0.2, 0.7)`. -/
def dfExample : DataFrame :=
  { cols := ["model", "mae", "mae_sd", "accuracy"]
    rows := [[.s "A", .n 2 1, .n 1 10, .n 8 10],
             [.s "B", .n 1 1, .n 2 10, .n 7 10]] }

/-- `dfExample` with row B first (sorted ascending by `mae`). -/
def dfExampleSorted : DataFrame :=
  { cols := ["model", "mae", "mae_sd", "accuracy"]
    rows := [[.s "B", .n 1 1, .n 2 10, .n 7 10],
             [.s "A", .n 2 1, .n 1 10, .n 8 10]] }

/-- The same table with the error column spelled `MAE` in upper case. -/
def dfUpperMae : DataFrame :=
  { cols := ["model", "MAE"]
    rows := [[.s "A", .n 2 1], [.s "B", .n 1 1]] }

/-- A classification table with no error-magnitude column. -/
def dfNoErrCol : DataFrame :=
  { cols := ["model", "accuracy", "f1"]
    rows := [[.s "A", .n 8 10, .n 7 10], [.s "B", .n 7 10, .n 6 10]] }

/-- A construction-time environment: data path valid, requested outdir not
yet existing. -/
def initEnvFresh : InitEnv :=
  { datapathExists := true
    datapathIsFile := true
    outdirExists := false
    outdirIsDir := true }

/-! # Theorems -/

/-- **C1.** The claim says `ProgramDirs.new` creates the fixed
subdirectory tree under every successfully resolved non-`None` root and
degrades to the in-memory state if any creation fails.  The code does
neither: the loop at line 68 iterates over `new.__dict__` itself — the
attribute **names** (strings) — so `isinstance(path, Path)` is false for
every iteration, no `mkdir` is ever attempted, and the degradation branch
is unreachable.  For every environment and every successfully resolved
root, `ProgramDirs.new` returns the populated record and creates no
directory at all. -/
theorem claim_C1_new_never_creates_subdirs (env : FsEnv) (root : Option String)
    (r : String) (nc : Bool) (h : configure_root env root = (some r, nc)) :
    ProgramDirs.new env root = (ProgramDirs.populated r nc, []) := by
  unfold ProgramDirs.new
  rw [h]
  rfl

/-- **C1** witness: a fully writable filesystem resolves an explicit root
to itself, and materialization still creates no subdirectory. -/
theorem claim_C1_witness :
    configure_root fsEnvAllOk (some "/out") = (some "/out", false) ∧
    ProgramDirs.new fsEnvAllOk (some "/out") = (ProgramDirs.populated "/out" false, []) :=
  ⟨rfl, claim_C1_new_never_creates_subdirs fsEnvAllOk (some "/out") "/out" false rfl⟩

/-- **C2.** The claim says a non-writable explicitly requested root is a
fatal configuration error that does not degrade to the in-memory state.
In the code the `raise PermissionError` at line 87 sits inside the very
`try` whose blanket `except Exception` (line 134) catches it, so for
every environment and every non-writable requested root the body raises
the `PermissionError` and `configure_root` swallows it and returns the
in-memory `(None, False)` instead of failing. -/
theorem claim_C2_permission_error_swallowed (env : FsEnv) (r : String)
    (h : env.writable r = false) :
    configure_root_body env (some r) = .error (.permissionError r) ∧
    configure_root env (some r) = (none, false) := by
  have hbody : configure_root_body env (some r) = .error (.permissionError r) := by
    simp [configure_root_body, h]
  refine ⟨hbody, ?_⟩
  unfold configure_root
  rw [hbody]

/-- **C2** witness: with nothing writable, requesting `/locked` raises and
swallows the `PermissionError` and yields the in-memory result. -/
theorem claim_C2_witness :
    configure_root_body fsEnvNoWrite (some "/locked") = .error (.permissionError "/locked") ∧
    configure_root fsEnvNoWrite (some "/locked") = (none, false) :=
  claim_C2_permission_error_swallowed fsEnvNoWrite "/locked" rfl

/-! ### Support lemmas for `get_hash` -/

theorem any_key_eq_mem_keys (d : List (String × String)) (k : String) :
    d.any (fun kv => kv.1 == k) = true ↔ k ∈ d.map Prod.fst := by
  rw [List.any_eq_true]
  constructor
  · rintro ⟨kv, hmem, hk⟩
    rw [beq_iff_eq] at hk
    exact List.mem_map.mpr ⟨kv, hmem, hk⟩
  · intro hmem
    obtain ⟨kv, hkv, hfst⟩ := List.mem_map.mp hmem
    exact ⟨kv, hkv, beq_iff_eq.mpr hfst⟩

theorem keys_filter_key (d : List (String × String)) (k : String) :
    (d.filter (fun kv => !(kv.1 == k))).map Prod.fst =
      (d.map Prod.fst).filter (fun s => !(s == k)) := by
  induction d with
  | nil => rfl
  | cons a as ih =>
    by_cases hk : a.1 == k
    · simp [List.filter, hk, ih]
    · simp only [Bool.not_eq_true] at hk
      simp [List.filter, hk, ih]

theorem any_congr_of_perm (p : String × String → Bool)
    {l₁ l₂ : List (String × String)} (h : l₁.Perm l₂) : l₁.any p = l₂.any p := by
  cases hb : l₂.any p with
  | true =>
    rw [List.any_eq_true] at hb ⊢
    obtain ⟨x, hx, hp⟩ := hb
    exact ⟨x, h.mem_iff.mpr hx, hp⟩
  | false =>
    cases ha : l₁.any p with
    | false => rfl
    | true =>
      rw [List.any_eq_true] at ha
      obtain ⟨x, hx, hp⟩ := ha
      have : l₂.any p = true := List.any_eq_true.mpr ⟨x, h.mem_iff.mp hx, hp⟩
      rw [hb] at this
      cases this

theorem popAll_eq_filter : ∀ (igs : List String) (d d' : List (String × String)),
    popAll d igs = some d' → d' = d.filter (fun kv => !(igs.contains kv.1))
  | [], d, d', h => by
    simp only [popAll, Option.some.injEq] at h
    subst h
    simp
  | k :: rest, d, d', h => by
    simp only [popAll, dict_pop] at h
    by_cases hany : d.any (fun kv => kv.1 == k) = true
    · rw [if_pos hany] at h
      have ih := popAll_eq_filter rest (d.filter fun kv => !(kv.1 == k)) d' h
      rw [ih, List.filter_filter]
      apply List.filter_congr
      intro a _
      simp only [List.contains_cons, Bool.not_or]
      rw [Bool.and_comm]
    · rw [if_neg hany] at h
      cases h

theorem any_map_fst (d : List (String × String)) (p : String → Bool) :
    (d.map Prod.fst).any p = d.any (fun kv => p kv.1) := by
  induction d with
  | nil => rfl
  | cons a as ih => simp [ih]

theorem popAll_isSome_congr : ∀ (igs : List String)
    (d₁ d₂ : List (String × String)), d₁.map Prod.fst = d₂.map Prod.fst →
    (popAll d₁ igs).isSome = (popAll d₂ igs).isSome
  | [], _, _, _ => rfl
  | k :: rest, d₁, d₂, hkeys => by
    have hany : (d₁.any fun kv => kv.1 == k) = (d₂.any fun kv => kv.1 == k) := by
      rw [← any_map_fst d₁ (fun s => s == k), ← any_map_fst d₂ (fun s => s == k), hkeys]
    simp only [popAll, dict_pop]
    by_cases h1 : d₁.any (fun kv => kv.1 == k) = true
    · rw [if_pos h1, if_pos (hany ▸ h1)]
      exact popAll_isSome_congr rest _ _ (by rw [keys_filter_key, keys_filter_key, hkeys])
    · rw [if_neg h1, if_neg (fun hh => h1 (hany.symm ▸ hh))]

theorem popAll_perm : ∀ (igs : List String) (d₁ d₂ : List (String × String)),
    d₁.Perm d₂ →
    (popAll d₁ igs = none ∧ popAll d₂ igs = none) ∨
    (∃ e₁ e₂, popAll d₁ igs = some e₁ ∧ popAll d₂ igs = some e₂ ∧ e₁.Perm e₂)
  | [], d₁, d₂, hp => Or.inr ⟨d₁, d₂, rfl, rfl, hp⟩
  | k :: rest, d₁, d₂, hp => by
    have hany : (d₁.any fun kv => kv.1 == k) = (d₂.any fun kv => kv.1 == k) :=
      any_congr_of_perm _ hp
    simp only [popAll, dict_pop]
    by_cases h1 : d₁.any (fun kv => kv.1 == k) = true
    · rw [if_pos h1, if_pos (hany ▸ h1)]
      exact popAll_perm rest _ _ (hp.filter _)
    · rw [if_neg h1, if_neg (fun hh => h1 (hany.symm ▸ hh))]
      exact Or.inl ⟨rfl, rfl⟩

theorem popAll_none_of_missing : ∀ (igs : List String)
    (d : List (String × String)) (k : String), k ∈ igs →
    k ∉ d.map Prod.fst → popAll d igs = none
  | [], _, _, hk, _ => absurd hk (List.not_mem_nil _)
  | j :: rest, d, k, hk, hmiss => by
    simp only [popAll, dict_pop]
    by_cases hany : d.any (fun kv => kv.1 == j) = true
    · rw [if_pos hany]
      rcases List.mem_cons.mp hk with hkj | hkrest
      · subst hkj
        exact absurd ((any_key_eq_mem_keys d k).mp hany) hmiss
      · apply popAll_none_of_missing rest _ k hkrest
        rw [keys_filter_key]
        intro hmem
        exact hmiss (List.mem_of_mem_filter hmem)
    · rw [if_neg hany]

theorem popAll_isSome_all_present : ∀ (igs : List String)
    (d : List (String × String)), (popAll d igs).isSome = true →
    ∀ k ∈ igs, k ∈ d.map Prod.fst
  | [], _, _, _, hk => absurd hk (List.not_mem_nil _)
  | j :: rest, d, hsome, k, hk => by
    simp only [popAll, dict_pop] at hsome
    by_cases hany : d.any (fun kv => kv.1 == j) = true
    · rw [if_pos hany] at hsome
      rcases List.mem_cons.mp hk with hkj | hkrest
      · subst hkj
        exact (any_key_eq_mem_keys d k).mp hany
      · have := popAll_isSome_all_present rest _ hsome k hkrest
        rw [keys_filter_key] at this
        exact List.mem_of_mem_filter this
    · rw [if_neg hany] at hsome
      cases hsome

/-- **C3.** `get_hash` is deterministic over the semantic content of the
configuration dictionary: (1) two argument dictionaries holding the same
key/value pairs in any insertion order hash identically (the items are
sorted before serialization); (2) two dictionaries differing only in the
value of a field named in the ignores list hash identically (the field is
popped before hashing); (3) the construction-time normalization
`tuple(sorted(set(…)))` of multi-valued options is order-independent, so
equal semantic choices give equal field values in the first place. -/
theorem claim_C3_get_hash_deterministic :
    (∀ (digest : String → String) (ignores : Option (List String))
       (d₁ d₂ : List (String × String)), d₁.Perm d₂ →
       get_hash digest d₁ ignores = get_hash digest d₂ ignores) ∧
    (∀ (digest : String → String) (ignores : Option (List String))
       (k v₁ v₂ : String) (pre post : List (String × String)),
       k ∈ ignores.getD [] →
       get_hash digest (pre ++ (k, v₁) :: post) ignores =
         get_hash digest (pre ++ (k, v₂) :: post) ignores) ∧
    (∀ xs ys : List String, xs.Perm ys → tuple_sorted_set xs = tuple_sorted_set ys) := by
  refine ⟨?_, ?_, ?_⟩
  · intro digest ignores d₁ d₂ hp
    simp only [get_hash]
    rcases popAll_perm (ignores.getD []) d₁ d₂ hp with ⟨h1, h2⟩ | ⟨e₁, e₂, h1, h2, hpe⟩
    · rw [h1, h2]
    · rw [h1, h2]
      have hsorted : sorted_items e₁ = sorted_items e₂ := by
        apply List.eq_of_perm_of_sorted (r := itemLe)
        · exact (List.perm_insertionSort itemLe e₁).trans
            (hpe.trans (List.perm_insertionSort itemLe e₂).symm)
        · exact List.sorted_insertionSort itemLe e₁
        · exact List.sorted_insertionSort itemLe e₂
      simp [hsorted]
  · intro digest ignores k v₁ v₂ pre post hk
    have hkeys : (pre ++ (k, v₁) :: post).map Prod.fst =
        (pre ++ (k, v₂) :: post).map Prod.fst := by simp
    have h2 := popAll_isSome_congr (ignores.getD []) _ _ hkeys
    simp only [get_hash]
    cases hp1 : popAll (pre ++ (k, v₁) :: post) (ignores.getD []) with
    | none =>
      rw [hp1] at h2
      cases hp2 : popAll (pre ++ (k, v₂) :: post) (ignores.getD []) with
      | none => rfl
      | some e => rw [hp2] at h2; simp at h2
    | some e₁ =>
      rw [hp1] at h2
      cases hp2 : popAll (pre ++ (k, v₂) :: post) (ignores.getD []) with
      | none => rw [hp2] at h2; simp at h2
      | some e₂ =>
        have he : e₁ = e₂ := by
          rw [popAll_eq_filter (ignores.getD []) _ e₁ hp1,
            popAll_eq_filter (ignores.getD []) _ e₂ hp2]
          simp [List.filter_append, List.filter_cons, hk]
        rw [he]
  · intro xs ys hp
    unfold tuple_sorted_set
    have hd : xs.dedup.Perm ys.dedup := by
      rw [List.perm_ext_iff_of_nodup (List.nodup_dedup xs) (List.nodup_dedup ys)]
      intro a
      rw [List.mem_dedup, List.mem_dedup]
      exact hp.mem_iff
    exact List.eq_of_perm_of_sorted
      ((List.perm_insertionSort pyLe _).trans
        (hd.trans (List.perm_insertionSort pyLe _).symm))
      (List.sorted_insertionSort pyLe _) (List.sorted_insertionSort pyLe _)

/-- **C3** witness: concrete reordered dictionaries hash identically, two
dictionaries differing only in an ignored `verbosity` field hash
identically, and the multi-valued normalization is order-independent. -/
theorem claim_C3_witness :
    get_hash id [("a", "1"), ("b", "2")] none =
      get_hash id [("b", "2"), ("a", "1")] none ∧
    get_hash id [("a", "1"), ("verbosity", "0"), ("b", "2")] (some ["verbosity"]) =
      get_hash id [("a", "1"), ("verbosity", "1"), ("b", "2")] (some ["verbosity"]) ∧
    tuple_sorted_set ["svm", "knn"] = tuple_sorted_set ["knn", "svm"] :=
  ⟨claim_C3_get_hash_deterministic.1 id none _ _ (by decide),
   claim_C3_get_hash_deterministic.2.1 id (some ["verbosity"]) "verbosity" "0" "1"
     [("a", "1")] [("b", "2")] (by decide),
   claim_C3_get_hash_deterministic.2.2 ["svm", "knn"] ["knn", "svm"] (by decide)⟩

/-- **C10.** `to_hash.pop(ignore)` is called with no default, so if any
name in the ignores list is not a key of the argument dictionary,
`get_hash` raises `KeyError` (returns `none` in the model) instead of
treating the absent field as absent; it returns a digest only when every
ignored name is present as a key. -/
theorem claim_C10_pop_missing_ignore_raises (digest : String → String)
    (args : List (String × String)) (igs : List String) :
    ((∃ k ∈ igs, k ∉ args.map Prod.fst) → get_hash digest args (some igs) = none) ∧
    ((get_hash digest args (some igs)).isSome = true →
      ∀ k ∈ igs, k ∈ args.map Prod.fst) := by
  constructor
  · rintro ⟨k, hk, hmiss⟩
    simp only [get_hash, Option.getD_some]
    rw [popAll_none_of_missing igs args k hk hmiss]
  · intro hsome k hk
    simp only [get_hash, Option.getD_some] at hsome
    cases hp : popAll args igs with
    | none => rw [hp] at hsome; cases hsome
    | some e =>
      exact popAll_isSome_all_present igs args (by rw [hp]; rfl) k hk

/-- **C10** witness: ignoring the absent key `b` raises `KeyError`
(returns `none`), and a returned digest implies the ignored key was
present. -/
theorem claim_C10_witness :
    get_hash id [("a", "1")] (some ["b"]) = none ∧
    "a" ∈ [("a", "1")].map Prod.fst :=
  ⟨(claim_C10_pop_missing_ignore_raises id [("a", "1")] ["b"]).1
     ⟨"b", by decide, by decide⟩,
   (claim_C10_pop_missing_ignore_raises id [("a", "1")] ["a"]).2 (by decide) "a"
     (by decide)⟩

/-- **C4.** The claim says `try_save` raises exactly for file types outside
the enumerated set `{Interim, Final, Feature, Params, Univariate}` and
proceeds to the writes for every member of that set.  The code does not:
`FileType.Univariate` — a member of the enumerated set — falls into the
`else: raise ValueError("Invalid FileType for manual saving")` branch, and
the four handled branches read the attributes `interim_results`,
`final_results` and `feature_selection`, none of which the `ProgramDirs`
dataclass defines, so they raise `AttributeError` before reaching the
writes.  The dispatch outcome for every `ProgramDirs` value and every
selection/cleaning argument: -/
theorem claim_C4_univariate_raises (program_dirs : ProgramDirs)
    (selection : Option String) (cleaning : List String) :
    try_save_outdir program_dirs .univariate selection cleaning =
      .error (.valueError "Invalid FileType for manual saving") ∧
    try_save_outdir program_dirs .interim selection cleaning =
      .error (.attributeError "interim_results") ∧
    try_save_outdir program_dirs .final selection cleaning =
      .error (.attributeError "final_results") ∧
    try_save_outdir program_dirs .feature selection cleaning =
      .error (.attributeError "feature_selection") ∧
    try_save_outdir program_dirs .params selection cleaning =
      .error (.attributeError "feature_selection") :=
  ⟨rfl, rfl, rfl, rfl, rfl⟩

/-- **C5.** The two serialization formats are written by two separate
`try/except Exception` blocks: whether the CSV write succeeds depends only
on the CSV serialization outcome (not on the JSON outcome) and vice
versa, and — the write phase being a total function into `SaveTrace` —
neither failure escapes to the caller.  This holds for the `try_save` of
`df-analyze.py` and for the write phase of `try_save` in
`src/saving.py`. -/
theorem claim_C5_write_isolation (env : WriteEnv)
    (md outdir file_info desc file_stem : String) :
    ((try_save_writes env md outdir file_info).savedJson = env.jsonOk ∧
     (try_save_writes env md outdir file_info).savedCsv = env.csvOk) ∧
    ((try_save_writes_full env md desc outdir file_stem).savedJson = env.jsonOk ∧
     (try_save_writes_full env md desc outdir file_stem).savedCsv = env.csvOk) := by
  obtain ⟨j, c⟩ := env
  cases j <;> cases c <;>
    simp [try_save_writes, try_save_writes_full, writeBlock]

/-- **C6.** The claim says that on a failed write a fixed-width rendering
of the artifact is emitted to standard output.  The code computes
`df.to_markdown(tablefmt="simple", floatfmt="0.5f")` in the handler but
never prints it — the call is a bare expression statement whose value is
discarded.  Standard output consists exactly of the fixed diagnostic
lines, and the rendering `md` appears only among the discarded values. -/
theorem claim_C6_markdown_never_printed (env : WriteEnv)
    (md outdir file_info : String) :
    (try_save_writes env md outdir file_info).stdout =
      (if env.jsonOk then
        ["Saved interim result to " ++ pjoin outdir (file_info ++ ".json")]
       else
        ["Failed to save following results to " ++ pjoin outdir (file_info ++ ".json")]) ++
      (if env.csvOk then
        ["Saved interim result to " ++ pjoin outdir (file_info ++ ".csv")]
       else
        ["Failed to save following results to " ++ pjoin outdir (file_info ++ ".csv")]) ∧
    (try_save_writes env md outdir file_info).discarded =
      (if env.jsonOk then [] else [md]) ++ (if env.csvOk then [] else [md]) := by
  obtain ⟨j, c⟩ := env
  cases j <;> cases c <;> simp [try_save_writes, writeBlock]

/-- **C7** counterexample: for the table with columns `{model, MAE}` the
claim predicts a sort ascending by the error column (the inspection is
case-insensitive), but the code sorts by the *lower-cased* name `"mae"`,
which is not a column label, so `sort_values` raises `KeyError` instead
of returning any sorted table. -/
theorem claim_C7_counterexample :
    sort_df dfUpperMae = .error (.keyError "mae") := rfl

/-- **C7** (amended): `sort_df` matches the lower-cased column names
against `"mae"`/`"sd"` and sorts by the lower-cased matched name, so the
claimed behavior holds only when that name is itself a column label (in
particular when the column names are already lower case): with no
matching column the table is returned unchanged, and on the claim
example `{model, mae, mae_sd, accuracy}` row B (mae 1.0) precedes row A
(mae 2.0); when the matched name is not a column label (e.g. column
`MAE`), `sort_values` raises `KeyError` instead. -/
theorem claim_C7_sort_df_policy :
    (∀ df : DataFrame,
       (df.cols.map pyLower).find?
         (fun c => strContains c "mae" && !strContains c "sd") = none →
       sort_df df = .ok df) ∧
    sort_df dfExample = .ok dfExampleSorted ∧
    sort_df dfNoErrCol = .ok dfNoErrCol := by
  refine ⟨?_, rfl, rfl⟩
  intro df h
  simp only [sort_df]
  rw [h]

/-- **C7** witness: the no-error-column table has no matching column and
is returned unchanged. -/
theorem claim_C7_witness :
    (dfNoErrCol.cols.map pyLower).find?
      (fun c => strContains c "mae" && !strContains c "sd") = none ∧
    sort_df dfNoErrCol = .ok dfNoErrCol :=
  ⟨rfl, claim_C7_sort_df_policy.1 dfNoErrCol rfl⟩

/-- Membership in the normalized multi-valued tuple is membership in the
raw input. -/
theorem mem_tuple_sorted_set {a : String} {xs : List String} :
    a ∈ tuple_sorted_set xs ↔ a ∈ xs := by
  simp [tuple_sorted_set, List.mem_insertionSort, List.mem_dedup]

/-- **C8** counterexample: constructing `ProgramOptions` with
`mode = regress` and `feat_select = [d]` (valid data path, requested
outdir not yet existing) does raise the `ValueError` at construction
time, but the event trace shows `os.makedirs` (inside `ensure_outdir`,
line 172/263) and the `setup_io` provisioning call (line 173) happen
*before* the raise at line 201 — the output directory is created before
the error, contradicting the claim. -/
theorem claim_C8_counterexample :
    programOptions_init initEnvFresh "/data/x.csv" ["d"] "regress" (some "/out") =
      { events := [.makedirs_outdir "/out", .setup_io "/out"]
        error := some (.valueError
          ("Feature selection with Cohens d or AUC values is not supported " ++
           "for regression tasks. Got arguments: " ++ "d"))
        feat_select := ["d"] } := rfl

/-- **C8** (amended): for `mode = regress` with an effect-size selection
method (`d` or `auc`), `ProgramOptions.__init__` raises the `ValueError`
at construction time — before any grid run — but only *after*
`ensure_outdir` and `setup_io` have executed, so when the requested
output directory did not yet exist, `os.makedirs` has already created it
by the time the error is raised. -/
theorem claim_C8_raises_after_outdir_creation (env : InitEnv)
    (datapath out mode : String) (fs : List String)
    (hmode : mode = "regress") (hsel : "d" ∈ fs ∨ "auc" ∈ fs)
    (hdp1 : env.datapathExists = true) (hdp2 : env.datapathIsFile = true)
    (hout : env.outdirExists = false) :
    programOptions_init env datapath fs mode (some out) =
      { events := [.makedirs_outdir out, .setup_io out]
        error := some (.valueError
          ("Feature selection with Cohens d or AUC values is not supported " ++
           "for regression tasks. Got arguments: " ++
           pyJoin " " (tuple_sorted_set fs)))
        feat_select := tuple_sorted_set fs } := by
  subst hmode
  have hmem : "d" ∈ tuple_sorted_set fs ∨ "auc" ∈ tuple_sorted_set fs := by
    rcases hsel with h | h
    · exact Or.inl (mem_tuple_sorted_set.mpr h)
    · exact Or.inr (mem_tuple_sorted_set.mpr h)
  simp [programOptions_init, validate_datapath, hdp1, hdp2, ensure_outdir, hout]
  exact fun h => hmem.resolve_left h

/-- **C8** witness: the amended statement at the concrete counterexample
input. -/
theorem claim_C8_witness :
    programOptions_init initEnvFresh "/data/y.csv" ["auc", "pca"] "regress" (some "/o2") =
      { events := [.makedirs_outdir "/o2", .setup_io "/o2"]
        error := some (.valueError
          ("Feature selection with Cohens d or AUC values is not supported " ++
           "for regression tasks. Got arguments: " ++
           pyJoin " " (tuple_sorted_set ["auc", "pca"])))
        feat_select := tuple_sorted_set ["auc", "pca"] } :=
  claim_C8_raises_after_outdir_creation initEnvFresh "/data/y.csv" "/o2" "regress"
    ["auc", "pca"] rfl (Or.inr (by decide)) rfl rfl rfl

/-- One loop iteration appended. -/
theorem loopEvents_succ (k : Nat) :
    loopEvents (k + 1) = loopEvents k ++ pointEvents k := by
  unfold loopEvents
  rw [List.range_succ, List.flatMap_append]
  simp

/-- Each completed prefix of the loop contains exactly one interim save
per completed grid point. -/
theorem countP_loopEvents (k : Nat) :
    (loopEvents k).countP isSaveInterim = k := by
  induction k with
  | zero => rfl
  | succ k ih => rw [loopEvents_succ, List.countP_append, ih]; rfl

/-- **C9.** In `run_analysis` each grid point is analyzed and its result
persisted as an `Interim` artifact before the loop advances, and the
`Final` artifact is saved only after every grid point: stopping after `k`
of `n` points yields the trace `stopAfter d k`, a prefix of the full
trace, containing exactly `k` interim saves and no final save; the full
trace extends the `k`-point prefix by the remaining per-point
analyze/save pairs followed by the single final save, and each loop step
appends exactly one analyze/save-interim pair. -/
theorem claim_C9_interim_before_final (d : String) (n k : Nat) (hk : k ≤ n) :
    run_analysis_trace (some d) n =
      .ok (stopAfter d k ++ ((List.range n).drop k).flatMap pointEvents ++
        [.save_final]) ∧
    (stopAfter d k).countP isSaveInterim = k ∧
    RunEvent.save_final ∉ stopAfter d k ∧
    stopAfter d (k + 1) = stopAfter d k ++ pointEvents k := by
  refine ⟨?_, ?_, ?_, ?_⟩
  · have hsplit : loopEvents n =
        loopEvents k ++ ((List.range n).drop k).flatMap pointEvents := by
      unfold loopEvents
      conv_lhs => rw [← List.take_append_drop k (List.range n)]
      rw [List.flatMap_append, List.take_range, Nat.min_eq_left hk]
    simp [run_analysis_trace, stopAfter, hsplit]
  · simp [stopAfter, countP_loopEvents, List.countP_cons, isSaveInterim]
  · simp [stopAfter, loopEvents, pointEvents]
  · simp [stopAfter, loopEvents_succ]

/-- **C9** witness: with 4 grid points and an interrupt after 2, the
observable trace has exactly 2 interim saves and no final save. -/
theorem claim_C9_witness :
    run_analysis_trace (some "/out") 4 =
      .ok (stopAfter "/out" 2 ++ ((List.range 4).drop 2).flatMap pointEvents ++
        [.save_final]) ∧
    (stopAfter "/out" 2).countP isSaveInterim = 2 ∧
    RunEvent.save_final ∉ stopAfter "/out" 2 ∧
    stopAfter "/out" (2 + 1) = stopAfter "/out" 2 ++ pointEvents 2 :=
  claim_C9_interim_before_final "/out" 4 2 (by decide)
